import Mathlib

/-!
Shallow embedding of src/server.js (a small Express + MongoDB + Cloudinary
content-management backend) and verification of its specification claims.

Modelling conventions:
* A MongoDB document is an association list of string keys and JS values;
  lookup returns the first binding, and updating a key replaces the existing
  binding in place (mirroring JS object-spread followed by literal keys).
* A handler is a pure function of the parsed request, the relevant collection
  contents, and an injected store outcome (a store call either succeeds or
  faults with an error message, mirroring an awaited promise rejection that
  lands in the catch block).
* HTTP responses record the numeric status and the JSON body shape; bodies
  produced through the sendResponse helper are distinguished from bare
  res.json objects and from the Express default error handler output.
-/

namespace Server

/-- JS values as far as the handlers inspect them: strings, numbers,
timestamps (new Date()), booleans and Mongo object ids. -/
inductive JsValue where
  | str (s : String)
  | num (n : Int)
  | date (t : Nat)
  | bool (b : Bool)
  | oid (s : String)
  deriving DecidableEq, Repr

/-- A loosely-typed document: an association list of fields. -/
abbrev Doc := List (String × JsValue)

/-- First binding of a key, mirroring JS property access on an object whose
keys are unique. -/
def getField : Doc → String → Option JsValue
  | [], _ => none
  | (k0, v0) :: rest, k => if k0 = k then some v0 else getField rest k

/-- Set a key, replacing an existing binding in place; mirrors the effect of
writing a literal key after an object spread. -/
def setField : Doc → String → JsValue → Doc
  | [], k, v => [(k, v)]
  | (k0, v0) :: rest, k, v =>
    if k0 = k then (k, v) :: rest else (k0, v0) :: setField rest k v

/-- ObjectId.isValid of the Node Mongo driver: a 12-character string (taken
as 12 bytes) or a 24-character hex string. -/
def isValidObjectId (s : String) : Bool :=
  s.length = 12 || (s.length = 24 && s.toList.all (fun c => c.isDigit ||
    (("abcdefABCDEF".toList).contains c)))

/-- The payloads the handlers pass to sendResponse or res.json. -/
inductive Payload where
  | doc (d : Doc)
  | docs (ds : List Doc)
  | insertRes (acknowledged : Bool) (insertedId : String)
  | deleteRes (deletedCount : Nat)
  | loginRes (user : Doc) (tokenEmail : String) (secret : String) (expiresIn : String)
  | stats (services banners faqs galleries : Nat)
  | msg (m : String)
  deriving DecidableEq, Repr

/-- JS data.message: defined exactly when the payload is a bare message
object or a document carrying a message field, undefined otherwise. -/
def payloadMessage : Payload → Option JsValue
  | .msg m => some (.str m)
  | .doc d => getField d "message"
  | _ => none

/-- JSON body shapes the server produces. -/
inductive Body where
  /-- Output of the sendResponse helper: status, result, message. -/
  | envelope (status : Nat) (result : Payload) (message : Option JsValue)
  /-- A bare res.json object carrying only a message field. -/
  | bare (message : String)
  /-- Plain-text res.send (root route only). -/
  | text (s : String)
  /-- The Express default error handler: an error forwarded with next(err)
  and no registered error middleware yields its default error page. -/
  | expressDefault (errMessage : String)
  deriving DecidableEq, Repr

/-- An HTTP response: numeric status plus JSON body. -/
structure Response where
  status : Nat
  body : Body
  deriving DecidableEq, Repr

/-- src lines 62-68: the uniform wrapper; message is copied from the payload
when the payload has one. -/
def sendResponse (status : Nat) (data : Payload) : Body :=
  .envelope status data (payloadMessage data)

/-- res.status(st).json(sendResponse(res, st, data)). -/
def jsonResp (st : Nat) (data : Payload) : Response :=
  ⟨st, sendResponse st data⟩

/-- res.status(st).json with a bare message object, bypassing sendResponse. -/
def bareResp (st : Nat) (m : String) : Response :=
  ⟨st, .bare m⟩

/-- Whether a body went through the sendResponse envelope. -/
def isEnveloped : Body → Bool
  | .envelope _ _ _ => true
  | _ => false

/-! ## Upload middleware (src lines 17-58)

Multer streams the single image field to Cloudinary.  We model the submitted
multipart request by whether it carries a file and that file size in bytes;
a file accepted by multer carries the Cloudinary URL (req.file.path) and the
Cloudinary public id (req.file.filename).  Format filtering by the media
host is not modelled: no claim depends on it. -/

/-- An accepted upload: req.file after multer + Cloudinary storage. -/
structure UploadedFile where
  path : String
  filename : String
  deriving DecidableEq, Repr

/-- The multipart request content for the image field. -/
inductive FileSubmission where
  | noFile
  | file (size : Nat) (path : String) (filename : String)
  deriving DecidableEq, Repr

/-- src line 29: limits.fileSize = 5 * 1024 * 1024. -/
def fileSizeLimit : Nat := 5 * 1024 * 1024

/-- Outcome of running the multer single-file middleware. -/
inductive UploadOutcome where
  | ok (f : UploadedFile)
  | none
  | multerErr (code : String) (message : String)
  deriving DecidableEq, Repr

/-- upload.single: no file leaves req.file unset; a file over the size
limit raises MulterError LIMIT_FILE_SIZE; otherwise the file is stored
remotely and req.file is populated. -/
def multerSingle : FileSubmission → UploadOutcome
  | .noFile => .none
  | .file size path filename =>
    if size > fileSizeLimit then .multerErr "LIMIT_FILE_SIZE" "File too large"
    else .ok ⟨path, filename⟩

/-- src lines 32-58, the safeUpload wrapper: maps multer errors to JSON
responses (LIMIT_FILE_SIZE gets the dedicated 400 message), rejects a
missing file with 400, and otherwise hands the file to the route handler.
Only POST /api/banners is wired to this middleware. -/
def safeUpload : UploadOutcome → Except Response UploadedFile
  | .multerErr code message =>
    if code = "LIMIT_FILE_SIZE" then
      .error (bareResp 400 "File too large. Maximum 5MB allowed.")
    else .error (bareResp 400 message)
  | .none => .error (bareResp 400 "Please upload an image")
  | .ok f => .ok f

/-- upload.single used directly as route middleware (POST /api/services and
POST /api/galleries, src lines 125 and 270): a multer error is passed to
next(err), and with no error middleware registered Express answers with its
default error handler, status 500; otherwise control reaches the handler
with req.file possibly unset. -/
def rawMulter : UploadOutcome → Except Response (Option UploadedFile)
  | .multerErr _ message => .error ⟨500, .expressDefault message⟩
  | .none => .ok Option.none
  | .ok f => .ok (some f)

/-! ## Store primitives

Store calls are awaited promises; a rejection lands in the handler catch
block.  Each handler therefore takes the relevant collection contents plus
an injected fault (none = the call resolves, some m = it rejects with an
error whose message is m). -/

/-- findOne on _id. -/
def findById (coll : List Doc) (id : String) : Option Doc :=
  coll.find? (fun d => getField d "_id" = some (.oid id))

/-- Whether some document of the collection has the given _id. -/
def existsById (coll : List Doc) (id : String) : Bool :=
  coll.any (fun d => getField d "_id" = some (.oid id))

/-- deleteOne on _id: removes at most the first matching document and
reports the deleted count. -/
def deleteOne : List Doc → String → List Doc × Nat
  | [], _ => ([], 0)
  | d :: rest, id =>
    if getField d "_id" = some (.oid id) then (rest, 1)
    else
      let r := deleteOne rest id
      (d :: r.1, r.2)

/-- The Node driver ObjectId constructor: throws on an invalid id string,
otherwise wraps it. -/
def parseObjectId (s : String) : Except String String :=
  if isValidObjectId s then .ok s
  else .error "input must be a 24 character hex string, 12 byte Uint8Array, or an integer"

/-! ## Item construction (create handlers) -/

/-- The item built by the image-bearing create handlers
(src lines 131-135, 192-196, 276-280): spread of the submitted body, then
image = req.file.path, then createdAt = new Date(); the literal keys
override any same-named submitted field. -/
def buildImageItem (body : Doc) (path : String) (now : Nat) : Doc :=
  setField (setField body "image" (.str path)) "createdAt" (.date now)

/-- The item built by POST /api/faqs (src lines 234-237): spread of the
submitted body, then createdAt = new Date(). -/
def buildFaqItem (body : Doc) (now : Nat) : Doc :=
  setField body "createdAt" (.date now)

/-! ## Route handlers -/

/-- Outcome of a create handler: the response, the document inserted into
the collection (if any), and the Cloudinary public ids destroyed by the
compensation step. -/
structure CreateOutcome where
  response : Response
  inserted : Option Doc
  destroyed : List String
  deriving DecidableEq, Repr

/-- Shared body of POST /api/services and POST /api/galleries
(src lines 125-148 and 270-291): raw multer middleware, explicit missing
file check, item construction, insert; on a caught error the uploaded file
is destroyed when req.file.filename is truthy, then 400 with the error
message through sendResponse. -/
def postImageRaw (sub : FileSubmission) (body : Doc) (now : Nat)
    (insertFault : Option String) (insertedId : String) : CreateOutcome :=
  match rawMulter (multerSingle sub) with
  | .error r => ⟨r, Option.none, []⟩
  | .ok Option.none => ⟨bareResp 400 "Please upload an image", Option.none, []⟩
  | .ok (some f) =>
    let item := buildImageItem body f.path now
    match insertFault with
    | Option.none => ⟨jsonResp 201 (.insertRes true insertedId), some item, []⟩
    | some m =>
      ⟨jsonResp 400 (.msg m), Option.none, if f.filename ≠ "" then [f.filename] else []⟩

/-- POST /api/services (src lines 125-148). -/
def postServices (sub : FileSubmission) (body : Doc) (now : Nat)
    (insertFault : Option String) (insertedId : String) : CreateOutcome :=
  postImageRaw sub body now insertFault insertedId

/-- POST /api/galleries (src lines 270-291). -/
def postGalleries (sub : FileSubmission) (body : Doc) (now : Nat)
    (insertFault : Option String) (insertedId : String) : CreateOutcome :=
  postImageRaw sub body now insertFault insertedId

/-- POST /api/banners (src lines 189-207): the only route wired to the
safeUpload middleware; the handler itself has no missing-file check and
otherwise matches the services handler. -/
def postBanners (sub : FileSubmission) (body : Doc) (now : Nat)
    (insertFault : Option String) (insertedId : String) : CreateOutcome :=
  match safeUpload (multerSingle sub) with
  | .error r => ⟨r, Option.none, []⟩
  | .ok f =>
    let item := buildImageItem body f.path now
    match insertFault with
    | Option.none => ⟨jsonResp 201 (.insertRes true insertedId), some item, []⟩
    | some m =>
      ⟨jsonResp 400 (.msg m), Option.none, if f.filename ≠ "" then [f.filename] else []⟩

/-- POST /api/faqs (src lines 232-244): no upload, insert the body plus
timestamp; 201 on success, 400 with the error message on a store fault. -/
def postFaqs (body : Doc) (now : Nat) (insertFault : Option String)
    (insertedId : String) : CreateOutcome :=
  match insertFault with
  | Option.none => ⟨jsonResp 201 (.insertRes true insertedId), some (buildFaqItem body now), []⟩
  | some m => ⟨jsonResp 400 (.msg m), Option.none, []⟩

/-- The list handlers (GET /api/services, /api/banners, /api/faqs,
/api/galleries): 200 with the full collection, 400 with the error message
on a store fault. -/
def listHandler (coll : List Doc) (fault : Option String) : Response :=
  match fault with
  | Option.none => jsonResp 200 (.docs coll)
  | some m => jsonResp 400 (.msg m)

/-- Outcome of the lookup handler: the response plus whether the store was
queried at all. -/
structure LookupOutcome where
  response : Response
  storeQueried : Bool
  deriving DecidableEq, Repr

/-- GET /api/services/:id (src lines 159-175): ObjectId.isValid first,
400 bare message if invalid (store not queried); then findOne, whose fault
is caught as 500; 404 bare message when absent; 200 enveloped document
when present. -/
def getServiceById (services : List Doc) (id : String)
    (findFault : Option String) : LookupOutcome :=
  if !isValidObjectId id then ⟨bareResp 400 "Invalid service ID", false⟩
  else
    match findFault with
    | some m => ⟨jsonResp 500 (.msg m), true⟩
    | Option.none =>
      match findById services id with
      | Option.none => ⟨bareResp 404 "Service not found", true⟩
      | some d => ⟨jsonResp 200 (.doc d), true⟩

/-- Outcome of a delete handler: the response, the collection afterwards,
and whether the store was queried. -/
structure DeleteOutcome where
  response : Response
  newColl : List Doc
  storeQueried : Bool
  deriving DecidableEq, Repr

/-- The delete-by-id handlers (src lines 176-183, 217-224, 254-261,
302-309), identical for services, banners, faqs and galleries: construct an
ObjectId (the constructor throw on a malformed id is caught as 400 before
any store call), deleteOne, 200 with the delete result; a store fault is
caught as 400 with the error message. -/
def deleteByIdHandler (coll : List Doc) (id : String)
    (deleteFault : Option String) : DeleteOutcome :=
  match parseObjectId id with
  | .error m => ⟨jsonResp 400 (.msg m), coll, false⟩
  | .ok oid =>
    match deleteFault with
    | some m => ⟨jsonResp 400 (.msg m), coll, true⟩
    | Option.none =>
      let r := deleteOne coll oid
      ⟨jsonResp 200 (.deleteRes r.2), r.1, true⟩

/-- GET /api/dashboard-stats (src lines 317-334): four independent counts
combined into one object; 400 with the error message on a store fault. -/
def dashboardStats (services banners faqs galleries : List Doc)
    (fault : Option String) : Response :=
  match fault with
  | Option.none =>
    jsonResp 200 (.stats services.length banners.length faqs.length galleries.length)
  | some m => jsonResp 400 (.msg m)

/-! ## Authentication (src lines 341-357) -/

/-- The message of the TypeError raised by reading .email off the null
returned by findOne when no user matches.  (The Node runtime message reads
"Cannot read properties of null (reading email)"; the exact wording is
irrelevant to the claims, only that it is not one of the two intended
authentication messages.) -/
def nullEmailReadMessage : String := "Cannot read properties of null"

/-- POST /api/login.  The source signs the JWT from user.email BEFORE the
existence check (src line 346), so when findOne returns null the property
read throws, the catch block answers 400 with the TypeError message, and
the 401 Invalid email address branch is unreachable.  For an existing user
the sign succeeds (the token claims carry user.email, signed with the
hardcoded secret, validity 100d) and the password comparison is a plaintext
strict inequality. -/
def loginHandler (users : List Doc) (email password : String) : Response :=
  match users.find? (fun d => getField d "email" = some (.str email)) with
  | Option.none => jsonResp 400 (.msg nullEmailReadMessage)
  | some u =>
    if getField u "password" ≠ some (.str password) then
      jsonResp 401 (.msg "Invalid password")
    else
      match getField u "email" with
      | some (.str e) => jsonResp 200 (.loginRes u e "jwt-secret" "100d")
      | _ => jsonResp 200 (.loginRes u email "jwt-secret" "100d")

/-! ## Admin seeding (src lines 70-86) -/

/-- The fixed seed credentials. -/
def adminEmail : String := "admin@admin.com"

/-- The document inserted by the seed routine. -/
def adminDoc : Doc := [("email", .str adminEmail), ("password", .str "admin")]

/-- Predicate for a user document carrying the fixed admin email. -/
def isAdminDoc (d : Doc) : Bool := getField d "email" = some (.str adminEmail)

/-- seedAdmin: findOne on the fixed admin email; if a document exists the
routine returns without writing, otherwise it inserts the fixed admin
document.  (Store faults are swallowed by its try/catch and not modelled;
the claims concern the guarded-insert logic.) -/
def seedAdmin (users : List Doc) : List Doc :=
  match users.find? (fun d => isAdminDoc d) with
  | some _ => users
  | Option.none => users ++ [adminDoc]

/-- Number of user documents carrying the fixed admin email. -/
def countAdmins (users : List Doc) : Nat := users.countP (fun d => isAdminDoc d)

/-! ## Process-level event handlers (src lines 364-372 and 407-421)

Node accumulates process.on listeners and emits to them in registration
order; a listener that calls process.exit terminates the process before any
later listener can matter.  Each registered listener is modelled by its
effect on the process. -/

/-- Effect of one process event listener. -/
inductive ListenerEffect where
  | exitsProcess (code : Nat)
  | logsOnly
  deriving DecidableEq, Repr

/-- src lines 364-372, registered at module level: logs, then either
server.close(() => process.exit(1)) or process.exit(1).  Both branches exit
with code 1.  (The identifier server is in fact unbound at module scope, so
the branch test itself throws a ReferenceError; that error surfaces as an
uncaught exception, whose handler also exits with code 1 — the effect is an
exit either way.) -/
def moduleLevelRejectionListener : ListenerEffect := .exitsProcess 1

/-- src lines 417-421, registered inside startServer: logs only, the
process.exit(1) line is commented out. -/
def startServerRejectionListener : ListenerEffect := .logsOnly

/-- src lines 411-414: the uncaughtException listener logs and calls
process.exit(1). -/
def uncaughtExceptionListener : ListenerEffect := .exitsProcess 1

/-- The unhandledRejection listeners in registration order: the module-level
one first (module evaluation), the startServer one second (startServer runs
at the bottom of the module). -/
def rejectionListeners : List ListenerEffect :=
  [moduleLevelRejectionListener, startServerRejectionListener]

/-- The uncaughtException listeners in registration order. -/
def exceptionListeners : List ListenerEffect := [uncaughtExceptionListener]

/-- Whether emitting an event to these listeners, in order, terminates the
process: true as soon as a listener exits, false if every listener only
logs. -/
def listenersCauseExit : List ListenerEffect → Bool
  | [] => false
  | .exitsProcess _ :: _ => true
  | .logsOnly :: rest => listenersCauseExit rest

/-! ## Helper lemmas -/

theorem getField_setField_self (d : Doc) (k : String) (v : JsValue) :
    getField (setField d k v) k = some v := by
  induction d with
  | nil => simp [setField, getField]
  | cons kv rest ih =>
    obtain ⟨k0, v0⟩ := kv
    by_cases h : k0 = k
    · simp [setField, h, getField]
    · simp [setField, h, getField, ih]

theorem getField_setField_of_ne (d : Doc) (k k2 : String) (v : JsValue)
    (h : k ≠ k2) :
    getField (setField d k v) k2 = getField d k2 := by
  induction d with
  | nil => simp [setField, getField, h]
  | cons kv rest ih =>
    obtain ⟨k0, v0⟩ := kv
    by_cases h0 : k0 = k
    · subst h0
      simp [setField, getField, h, Ne.symm h]
    · by_cases h2 : k0 = k2
      · simp [setField, getField, h0, h2, Ne.symm h]
      · simp [setField, getField, h0, h2, ih]

theorem deleteOne_count (coll : List Doc) (id : String) :
    (deleteOne coll id).2 = if existsById coll id then 1 else 0 := by
  induction coll with
  | nil => simp [deleteOne, existsById]
  | cons d rest ih =>
    by_cases h : getField d "_id" = some (.oid id)
    · simp [deleteOne, existsById, h]
    · simp only [deleteOne, existsById, h, if_false, List.any_cons]
      simpa [existsById, decide_eq_true_eq, h] using ih

theorem deleteOne_count_le (coll : List Doc) (id : String) :
    (deleteOne coll id).2 ≤ 1 := by
  rw [deleteOne_count]
  by_cases h : existsById coll id <;> simp [h]

/-! ## Claim theorems -/

/-- C4: for every delete-by-id request on any of the four collections
(services, banners, faqs, galleries all run the same handler body,
embedded as deleteByIdHandler), with a parseable identifier and a resolving
store call the handler answers 200 with the store delete result, whose
deleted count says whether zero or one document was removed (1 exactly when
a document with that id existed); and no delete request, whatever the
identifier or the store outcome, is ever answered 404. -/
theorem delete_by_id_always_200_never_404 (coll : List Doc) (id : String)
    (h : isValidObjectId id = true) :
    (deleteByIdHandler coll id Option.none).response
        = jsonResp 200 (.deleteRes (if existsById coll id then 1 else 0))
    ∧ (deleteByIdHandler coll id Option.none).response.status = 200
    ∧ (if existsById coll id then 1 else 0) ≤ 1
    ∧ ∀ (id2 : String) (fault : Option String),
        (deleteByIdHandler coll id2 fault).response.status ≠ 404 := by
  refine ⟨?_, ?_, ?_, ?_⟩
  · simp [deleteByIdHandler, parseObjectId, h, deleteOne_count]
  · simp [deleteByIdHandler, parseObjectId, h, jsonResp]
  · by_cases he : existsById coll id <;> simp [he]
  · intro id2 fault
    unfold deleteByIdHandler parseObjectId
    by_cases h2 : isValidObjectId id2 <;> cases fault <;> simp [h2, jsonResp]

/-- C4 witness: a concrete valid identifier against the empty collection. -/
theorem delete_by_id_always_200_never_404_witness :
    isValidObjectId "aaaaaaaaaaaa" = true
    ∧ (deleteByIdHandler [] "aaaaaaaaaaaa" Option.none).response
        = jsonResp 200 (.deleteRes 0) := by
  refine ⟨by decide, ?_⟩
  have h := delete_by_id_always_200_never_404 [] "aaaaaaaaaaaa" (by decide)
  simpa [existsById] using h.1

/-- C5: every delete-by-id handler (the same body for all four collections)
and the service lookup-by-id handler reject a malformed identifier with a
400 client error, leave the collection unchanged, and never reach the
store: the lookup checks ObjectId.isValid before its findOne, and the
deletes construct the ObjectId (whose constructor throws on a malformed
string) before their deleteOne. -/
theorem malformed_id_rejected_before_store (coll services : List Doc)
    (id : String) (fault : Option String)
    (h : isValidObjectId id = false) :
    (deleteByIdHandler coll id fault).response.status = 400
    ∧ (deleteByIdHandler coll id fault).storeQueried = false
    ∧ (deleteByIdHandler coll id fault).newColl = coll
    ∧ (getServiceById services id fault).response.status = 400
    ∧ (getServiceById services id fault).storeQueried = false := by
  refine ⟨?_, ?_, ?_, ?_, ?_⟩ <;>
    simp [deleteByIdHandler, parseObjectId, getServiceById, h, jsonResp, bareResp]

/-- C5 witness: a concrete malformed identifier. -/
theorem malformed_id_rejected_before_store_witness :
    isValidObjectId "zz" = false
    ∧ (deleteByIdHandler [] "zz" Option.none).response.status = 400
    ∧ (getServiceById [] "zz" Option.none).storeQueried = false := by
  refine ⟨by decide, ?_, ?_⟩
  · exact (malformed_id_rejected_before_store [] [] "zz" Option.none (by decide)).1
  · exact (malformed_id_rejected_before_store [] [] "zz" Option.none (by decide)).2.2.2.2

/-- C6: GET /api/services/:id answers 400 on a malformed identifier
(whatever the store would do), 404 when a well-formed identifier matches no
document, 200 with the document when one matches, and 500 when the findOne
call rejects. -/
theorem service_lookup_status_cases (s1 s2 s3 : List Doc)
    (bad g1 g2 m : String) (d : Doc) (fault : Option String)
    (hbad : isValidObjectId bad = false)
    (h1 : isValidObjectId g1 = true)
    (h2 : isValidObjectId g2 = true)
    (hfound : findById s2 g1 = some d)
    (hmiss : findById s3 g2 = Option.none) :
    (getServiceById s1 bad fault).response = bareResp 400 "Invalid service ID"
    ∧ (getServiceById s3 g2 Option.none).response = bareResp 404 "Service not found"
    ∧ (getServiceById s2 g1 Option.none).response = jsonResp 200 (.doc d)
    ∧ (getServiceById s1 g1 (some m)).response = jsonResp 500 (.msg m) := by
  refine ⟨?_, ?_, ?_, ?_⟩
  · simp [getServiceById, hbad]
  · simp [getServiceById, h2, hmiss]
  · simp [getServiceById, h1, hfound]
  · simp [getServiceById, h1]

/-- C6 witness: concrete collections exercising all four cases. -/
theorem service_lookup_status_cases_witness :
    isValidObjectId "zz" = false
    ∧ isValidObjectId "aaaaaaaaaaaa" = true
    ∧ isValidObjectId "bbbbbbbbbbbb" = true
    ∧ findById [[("_id", JsValue.oid "aaaaaaaaaaaa")]] "aaaaaaaaaaaa"
        = some [("_id", JsValue.oid "aaaaaaaaaaaa")]
    ∧ findById [] "bbbbbbbbbbbb" = Option.none
    ∧ (getServiceById [] "zz" Option.none).response = bareResp 400 "Invalid service ID"
    ∧ (getServiceById [] "bbbbbbbbbbbb" Option.none).response
        = bareResp 404 "Service not found"
    ∧ (getServiceById [[("_id", JsValue.oid "aaaaaaaaaaaa")]] "aaaaaaaaaaaa"
        Option.none).response
        = jsonResp 200 (.doc [("_id", JsValue.oid "aaaaaaaaaaaa")]) := by
  have h := service_lookup_status_cases [] [[("_id", JsValue.oid "aaaaaaaaaaaa")]] []
    "zz" "aaaaaaaaaaaa" "bbbbbbbbbbbb" "m" [("_id", JsValue.oid "aaaaaaaaaaaa")]
    Option.none (by decide) (by decide) (by decide) (by decide) (by decide)
  exact ⟨by decide, by decide, by decide, by decide, by decide, h.1, h.2.1, h.2.2.1⟩

/-- C7: on every image-bearing create (services, banners, galleries) where
the upload succeeded (file within the size limit, so req.file carries the
Cloudinary public id) and the insertOne call rejects, the handler destroys
exactly the uploaded remote file and answers 400 with the error message
through the envelope. -/
theorem insert_failure_compensates_upload (size : Nat) (p f : String)
    (body : Doc) (now : Nat) (m oid : String)
    (hsize : size ≤ fileSizeLimit) (hf : f ≠ "") :
    (postServices (.file size p f) body now (some m) oid).destroyed = [f]
    ∧ (postServices (.file size p f) body now (some m) oid).response
        = jsonResp 400 (.msg m)
    ∧ (postBanners (.file size p f) body now (some m) oid).destroyed = [f]
    ∧ (postBanners (.file size p f) body now (some m) oid).response
        = jsonResp 400 (.msg m)
    ∧ (postGalleries (.file size p f) body now (some m) oid).destroyed = [f]
    ∧ (postGalleries (.file size p f) body now (some m) oid).response
        = jsonResp 400 (.msg m) := by
  have hlt : ¬ size > fileSizeLimit := not_lt.mpr hsize
  refine ⟨?_, ?_, ?_, ?_, ?_, ?_⟩ <;>
    simp [postServices, postBanners, postGalleries, postImageRaw, safeUpload,
      rawMulter, multerSingle, hlt, hf]

/-- C7 witness: a one-byte upload followed by a rejected insert. -/
theorem insert_failure_compensates_upload_witness :
    (1 : Nat) ≤ fileSizeLimit
    ∧ ("pid" : String) ≠ ""
    ∧ (postBanners (.file 1 "url" "pid") [] 0 (some "db down") "x").destroyed = ["pid"]
    ∧ (postBanners (.file 1 "url" "pid") [] 0 (some "db down") "x").response
        = jsonResp 400 (.msg "db down") := by
  have h := insert_failure_compensates_upload 1 "url" "pid" [] 0 "db down" "x"
    (by decide) (by decide)
  exact ⟨by decide, by decide, h.2.2.1, h.2.2.2.1⟩

/-- C10: on every successful create the server-assigned fields win: the
inserted document is exactly the submitted body overridden by
image = the uploaded remote URL (for the image-bearing resources) and by
createdAt = the server timestamp, even when the body already carried
fields of those names. -/
theorem server_assigned_fields_win (body : Doc) (size : Nat) (p f : String)
    (now : Nat) (oid : String) (h : size ≤ fileSizeLimit) :
    (postServices (.file size p f) body now Option.none oid).inserted
        = some (buildImageItem body p now)
    ∧ (postBanners (.file size p f) body now Option.none oid).inserted
        = some (buildImageItem body p now)
    ∧ (postGalleries (.file size p f) body now Option.none oid).inserted
        = some (buildImageItem body p now)
    ∧ (postFaqs body now Option.none oid).inserted = some (buildFaqItem body now)
    ∧ getField (buildImageItem body p now) "image" = some (.str p)
    ∧ getField (buildImageItem body p now) "createdAt" = some (.date now)
    ∧ getField (buildFaqItem body now) "createdAt" = some (.date now) := by
  have hlt : ¬ size > fileSizeLimit := not_lt.mpr h
  refine ⟨?_, ?_, ?_, ?_, ?_, ?_, ?_⟩
  · simp [postServices, postImageRaw, rawMulter, multerSingle, hlt]
  · simp [postBanners, safeUpload, multerSingle, hlt]
  · simp [postGalleries, postImageRaw, rawMulter, multerSingle, hlt]
  · simp [postFaqs]
  · rw [buildImageItem, getField_setField_of_ne _ _ _ _ (by decide),
      getField_setField_self]
  · exact getField_setField_self _ _ _
  · exact getField_setField_self _ _ _

/-- C10 witness: a body that itself submits image and createdAt fields is
overridden by the server-assigned values. -/
theorem server_assigned_fields_win_witness :
    (1 : Nat) ≤ fileSizeLimit
    ∧ (postServices (.file 1 "https://media/x.png" "pid")
        [("image", JsValue.str "evil"), ("createdAt", JsValue.num 7)]
        42 Option.none "x").inserted
        = some (buildImageItem
            [("image", JsValue.str "evil"), ("createdAt", JsValue.num 7)]
            "https://media/x.png" 42)
    ∧ getField (buildImageItem
        [("image", JsValue.str "evil"), ("createdAt", JsValue.num 7)]
        "https://media/x.png" 42) "image" = some (.str "https://media/x.png")
    ∧ getField (buildImageItem
        [("image", JsValue.str "evil"), ("createdAt", JsValue.num 7)]
        "https://media/x.png" 42) "createdAt" = some (.date 42) := by
  have h := server_assigned_fields_win
    [("image", JsValue.str "evil"), ("createdAt", JsValue.num 7)]
    1 "https://media/x.png" "pid" 42 "x" (by decide)
  exact ⟨by decide, h.1, h.2.2.2.2.1, h.2.2.2.2.2.1⟩

/-- C1 counterexample: an oversized file posted to /api/services (wired to
the raw multer middleware, not to safeUpload) is answered by the Express
default error handler with status 500, not by the 400 response with the
dedicated message; no document is inserted. -/
theorem oversized_services_counterexample :
    (postServices (.file (fileSizeLimit + 1) "url" "pid") [] 0 Option.none
        "x").response.status ≠ 400
    ∧ (postServices (.file (fileSizeLimit + 1) "url" "pid") [] 0 Option.none
        "x").response.status = 500
    ∧ (postServices (.file (fileSizeLimit + 1) "url" "pid") [] 0 Option.none
        "x").inserted = Option.none := by
  have hgt : fileSizeLimit + 1 > fileSizeLimit := Nat.lt_succ_self _
  refine ⟨?_, ?_, ?_⟩ <;>
    simp [postServices, postImageRaw, rawMulter, multerSingle, hgt]

/-- C1 amended: an oversized file is rejected without any insert on all
three image routes, but only POST /api/banners (the one route wired to the
safeUpload middleware) answers 400 with the dedicated message; on
POST /api/services and /api/galleries the multer error reaches the Express
default error handler, status 500. -/
theorem oversized_upload_amended (size : Nat) (p f : String) (body : Doc)
    (now : Nat) (ifault : Option String) (oid : String)
    (h : size > fileSizeLimit) :
    (postBanners (.file size p f) body now ifault oid).response
        = bareResp 400 "File too large. Maximum 5MB allowed."
    ∧ (postBanners (.file size p f) body now ifault oid).inserted = Option.none
    ∧ (postServices (.file size p f) body now ifault oid).response.status = 500
    ∧ (postServices (.file size p f) body now ifault oid).inserted = Option.none
    ∧ (postGalleries (.file size p f) body now ifault oid).response.status = 500
    ∧ (postGalleries (.file size p f) body now ifault oid).inserted = Option.none := by
  refine ⟨?_, ?_, ?_, ?_, ?_, ?_⟩ <;>
    simp [postBanners, postServices, postGalleries, postImageRaw, safeUpload,
      rawMulter, multerSingle, h]

/-- C1 witness: a file one byte over the limit. -/
theorem oversized_upload_amended_witness :
    fileSizeLimit + 1 > fileSizeLimit
    ∧ (postBanners (.file (fileSizeLimit + 1) "url" "pid") [] 0 Option.none
        "x").response = bareResp 400 "File too large. Maximum 5MB allowed."
    ∧ (postServices (.file (fileSizeLimit + 1) "url" "pid") [] 0 Option.none
        "x").inserted = Option.none := by
  have h := oversized_upload_amended (fileSizeLimit + 1) "url" "pid" [] 0
    Option.none "x" (Nat.lt_succ_self _)
  exact ⟨Nat.lt_succ_self _, h.1, h.2.2.2.1⟩

/-- C2: the login handler reads user.email to sign the token before
checking that findOne returned a user, so for an unknown email the handler
throws and the catch block answers 400 with the TypeError message — the 401
Invalid email address branch is unreachable.  The other two outcomes behave
as claimed: wrong password 401, correct password 200 with the user document
and a token whose claims carry the email. -/
theorem login_unknown_email_bug :
    (loginHandler [] "nobody@example.com" "pw").status = 400
    ∧ (loginHandler [] "nobody@example.com" "pw").status ≠ 401
    ∧ (loginHandler [] "nobody@example.com" "pw").body
        ≠ sendResponse 401 (.msg "Invalid email address")
    ∧ loginHandler [[("email", JsValue.str "a@b.c"), ("password", JsValue.str "s")]]
        "a@b.c" "bad" = jsonResp 401 (.msg "Invalid password")
    ∧ loginHandler [[("email", JsValue.str "a@b.c"), ("password", JsValue.str "s")]]
        "a@b.c" "s"
        = jsonResp 200 (.loginRes
            [("email", JsValue.str "a@b.c"), ("password", JsValue.str "s")]
            "a@b.c" "jwt-secret" "100d") := by
  decide

/-- C8 counterexample: the unhandledRejection listener registered at module
level calls process.exit(1) in both of its branches, so emitting an
unhandled rejection terminates the process — it is not logged only. -/
theorem rejection_exits_counterexample :
    listenersCauseExit rejectionListeners = true
    ∧ moduleLevelRejectionListener = .exitsProcess 1 := by
  decide

/-- C8 amended: both an unhandled rejection and an uncaught exception
terminate the process with exit code 1; the later-registered log-only
rejection listener inside startServer does not prevent the exit performed
by the module-level listener that runs first. -/
theorem process_exits_on_both_events :
    listenersCauseExit rejectionListeners = true
    ∧ listenersCauseExit exceptionListeners = true
    ∧ startServerRejectionListener = .logsOnly := by
  decide

/-- C9 counterexample: from a store state already holding two documents
with the admin email, running the seed routine twice leaves two such
documents, not exactly one (the guard only checks existence, never
uniqueness). -/
theorem seed_twice_duplicate_counterexample :
    countAdmins (seedAdmin (seedAdmin [adminDoc, adminDoc])) = 2
    ∧ countAdmins (seedAdmin (seedAdmin [adminDoc, adminDoc])) ≠ 1 := by
  decide

theorem isAdminDoc_adminDoc : isAdminDoc adminDoc = true := by decide

theorem find?_admin_append (users : List Doc)
    (h : users.find? (fun d => isAdminDoc d) = Option.none) :
    (users ++ [adminDoc]).find? (fun d => isAdminDoc d) = some adminDoc := by
  induction users with
  | nil =>
    rw [List.nil_append]
    exact List.find?_cons_of_pos _ isAdminDoc_adminDoc
  | cons d rest ih =>
    by_cases hd : isAdminDoc d
    · rw [List.find?_cons_of_pos _ hd] at h
      exact absurd h (by simp)
    · rw [List.find?_cons_of_neg _ (by simpa using hd)] at h
      rw [List.cons_append, List.find?_cons_of_neg _ (by simpa using hd)]
      exact ih h

theorem seedAdmin_idem (users : List Doc) :
    seedAdmin (seedAdmin users) = seedAdmin users := by
  cases hfind : users.find? (fun d => isAdminDoc d) with
  | some x => simp [seedAdmin, hfind]
  | none => simp [seedAdmin, hfind, find?_admin_append users hfind]

theorem countAdmins_of_found (users : List Doc) (x : Doc)
    (h : users.find? (fun d => isAdminDoc d) = some x) :
    1 ≤ countAdmins users := by
  have hx : isAdminDoc x = true := List.find?_some h
  have hmem : x ∈ users := List.mem_of_find?_eq_some h
  have hpos : 0 < users.countP (fun d => isAdminDoc d) :=
    List.countP_pos_iff.mpr ⟨x, hmem, by simpa using hx⟩
  simpa [countAdmins] using hpos

theorem countAdmins_of_none (users : List Doc)
    (h : users.find? (fun d => isAdminDoc d) = Option.none) :
    countAdmins users = 0 := by
  have hall := List.find?_eq_none.mp h
  refine List.countP_eq_zero.mpr ?_
  intro a ha
  simpa using hall a ha

/-- C9 amended: the seed routine is idempotent (the second run finds the
document inserted or found by the first and writes nothing), and from any
store state holding at most one document with the admin email — in
particular any state the routine itself can produce from a fresh store —
two runs leave exactly one such document. -/
theorem seed_admin_amended (users : List Doc) (h : countAdmins users ≤ 1) :
    seedAdmin (seedAdmin users) = seedAdmin users
    ∧ countAdmins (seedAdmin (seedAdmin users)) = 1 := by
  refine ⟨seedAdmin_idem users, ?_⟩
  rw [seedAdmin_idem users]
  cases hfind : users.find? (fun d => isAdminDoc d) with
  | some x =>
    have h1 : seedAdmin users = users := by simp [seedAdmin, hfind]
    rw [h1]
    have h2 := countAdmins_of_found users x hfind
    omega
  | none =>
    have h1 : seedAdmin users = users ++ [adminDoc] := by simp [seedAdmin, hfind]
    have h2 : countAdmins (users ++ [adminDoc])
        = countAdmins users + countAdmins [adminDoc] := by
      simp [countAdmins, List.countP_append]
    have h3 : countAdmins [adminDoc] = 1 := by decide
    rw [h1, h2, h3, countAdmins_of_none users hfind]

/-- C9 witness: the empty store. -/
theorem seed_admin_amended_witness :
    countAdmins [] ≤ 1
    ∧ seedAdmin (seedAdmin []) = seedAdmin []
    ∧ countAdmins (seedAdmin (seedAdmin [])) = 1 := by
  have h := seed_admin_amended [] (by decide)
  exact ⟨by decide, h.1, h.2⟩

theorem isEnveloped_jsonResp (st : Nat) (p : Payload) :
    isEnveloped (jsonResp st p).body = true := rfl

/-- C3 counterexample: the 400 answer of GET /api/services/:id for a
malformed identifier is a JSON response of an API route other than the
root route, and it is a bare message object, not the sendResponse
envelope. -/
theorem unenveloped_response_counterexample :
    (getServiceById [] "zz" Option.none).response = bareResp 400 "Invalid service ID"
    ∧ isEnveloped (getServiceById [] "zz" Option.none).response.body = false := by
  decide

/-- C3 amended: every response built through sendResponse carries the
envelope of status, result and message, with the message copied from the
payload when the payload has one; this covers every path of the delete,
list, login, dashboard and FAQ-create handlers.  But the safeUpload
middleware rejections, the missing-file 400 of the raw-multer routes, and
the 400 and 404 answers of the service lookup are bare message objects
without the envelope. -/
theorem envelope_amended (coll users s b f g : List Doc)
    (id bad vid email pw m : String) (fault : Option String) (st : Nat)
    (body : Doc) (now : Nat) (oid : String)
    (hbad : isValidObjectId bad = false)
    (hvid : isValidObjectId vid = true)
    (hmiss : findById coll vid = Option.none) :
    isEnveloped (deleteByIdHandler coll id fault).response.body = true
    ∧ isEnveloped (listHandler coll fault).body = true
    ∧ isEnveloped (loginHandler users email pw).body = true
    ∧ isEnveloped (dashboardStats s b f g fault).body = true
    ∧ isEnveloped (postFaqs body now fault oid).response.body = true
    ∧ sendResponse st (.msg m) = .envelope st (.msg m) (some (.str m))
    ∧ sendResponse st (.deleteRes 0) = .envelope st (.deleteRes 0) Option.none
    ∧ isEnveloped (getServiceById coll bad fault).response.body = false
    ∧ isEnveloped (getServiceById coll vid Option.none).response.body = false
    ∧ safeUpload (multerSingle .noFile)
        = .error (bareResp 400 "Please upload an image")
    ∧ isEnveloped (bareResp 400 "Please upload an image").body = false := by
  refine ⟨?_, ?_, ?_, ?_, ?_, rfl, rfl, ?_, ?_, rfl, rfl⟩
  · unfold deleteByIdHandler parseObjectId
    by_cases hid : isValidObjectId id <;> cases fault <;>
      simp [hid, isEnveloped_jsonResp]
  · cases fault <;> simp [listHandler, isEnveloped_jsonResp]
  · unfold loginHandler
    split
    · exact isEnveloped_jsonResp _ _
    · split
      · exact isEnveloped_jsonResp _ _
      · split <;> exact isEnveloped_jsonResp _ _
  · cases fault <;> simp [dashboardStats, isEnveloped_jsonResp]
  · cases fault <;> simp [postFaqs, isEnveloped_jsonResp]
  · simp [getServiceById, hbad, bareResp, isEnveloped]
  · simp [getServiceById, hvid, hmiss, bareResp, isEnveloped]

/-- C3 witness: concrete enveloped and bare responses. -/
theorem envelope_amended_witness :
    isValidObjectId "zz" = false
    ∧ isValidObjectId "bbbbbbbbbbbb" = true
    ∧ findById [] "bbbbbbbbbbbb" = Option.none
    ∧ isEnveloped (deleteByIdHandler [] "zz" Option.none).response.body = true
    ∧ isEnveloped (getServiceById [] "zz" Option.none).response.body = false
    ∧ isEnveloped (getServiceById [] "bbbbbbbbbbbb" Option.none).response.body
        = false := by
  have h := envelope_amended [] [] [] [] [] [] "zz" "zz" "bbbbbbbbbbbb" "e" "p"
    "m" Option.none 200 [] 0 "x" (by decide) (by decide) (by decide)
  exact ⟨by decide, by decide, by decide, h.1, h.2.2.2.2.2.2.2.1,
    h.2.2.2.2.2.2.2.2.1⟩

end Server
